import Mathlib

/-!
Shallow embedding of the monthly trend pipeline of the ECHO-COVID19 notebook.

Each analysis cell follows the same pandas pattern: group the rows by their
exact date, aggregate, resample to a monthly grid (`resample('M')`), keep
only the bins of the target calendar month, and compare the series against
two baselines (the all-time mean and a mean over the fixed April labels of
2017, 2018 and 2019).  The geospatial cells join the filtered violation rows
with a facility table indexed by the facility identifier and then drop rows
whose coordinates are both missing.  The aggregators in the claims (count,
distinct count, sum of integer data) produce integers, so series values are
`ℤ` and only the two means live in `ℚ`; a missing float (NaN) is modelled
with `Option`, and a pandas `KeyError` with `Except.error`.
-/

/-- A calendar date as parsed from the `MM/DD/YYYY` strings of the source. -/
structure Date where
  year : Nat
  month : Nat
  day : Nat
deriving DecidableEq

/-- Linear month index: the month `m` of year `y` on the monthly grid. -/
def ymIdx (y m : Nat) : Nat := y * 12 + (m - 1)

/-- Month index of a date. -/
def ymIndex (d : Date) : Nat := ymIdx d.year d.month

/-- One fetched data row: a timestamp, a numeric value and a facility id. -/
structure Obs where
  date : Date
  value : ℤ
  fid : Nat
deriving DecidableEq

/-- The monthly grid `lo, lo+1, ..., hi` that `resample('M')` lays over the
data (empty when `hi < lo`). -/
def monthRange (lo hi : Nat) : List Nat :=
  (List.range (hi + 1 - lo)).map (fun i => lo + i)

/-- Month indices of all observations, in row order. -/
def obsMonths (obs : List Obs) : List Nat := obs.map (fun o => ymIndex o.date)

/-- The monthly bins produced by `resample('M')`: one bin per calendar month
from the earliest to the latest observation month, including empty months in
between. -/
def monthSpan (obs : List Obs) : List Nat :=
  match obsMonths obs with
  | [] => []
  | m :: ms => monthRange (ms.foldl min m) (ms.foldl max m)

/-- `groupby(date).count()` followed by `resample('M').sum()`: the number of
observations falling in month bin `m` (an empty bin sums to 0). -/
def countAgg (obs : List Obs) (m : Nat) : ℤ :=
  ((obs.filter (fun o => ymIndex o.date = m)).length : ℤ)

/-- Aggregation of the value column with `sum` on the monthly grid: the sum
of the values of the observations in month bin `m` (0 for an empty bin). -/
def sumAgg (obs : List Obs) (m : Nat) : ℤ :=
  (obs.filter (fun o => ymIndex o.date = m)).foldl (fun acc o => acc + o.value) 0

/-- The facility counting of the notebook:
`groupby(date).agg(nunique)` and then `resample('M').sum()` — for each
distinct exact date of the bin, the number of distinct facility ids recorded
on that date, summed over the dates of the bin. -/
def facAgg (obs : List Obs) (m : Nat) : ℤ :=
  ((((obs.filter (fun o => ymIndex o.date = m)).map (fun o => o.date)).dedup).map
    (fun d => ((((obs.filter (fun o => o.date = d)).map (fun o => o.fid)).dedup).length : ℤ))).sum

/-- The number of distinct facility ids among all observations of month bin
`m` (the quantity the facility chart is documented to show). -/
def monthDistinct (obs : List Obs) (m : Nat) : Nat :=
  (((obs.filter (fun o => ymIndex o.date = m)).map (fun o => o.fid)).dedup).length

/-- The MonthSeries: the monthly resample grid restricted to the bins whose
month component is the target month, each paired with its aggregated value. -/
def monthSeries (agg : List Obs → Nat → ℤ) (obs : List Obs) (targetMonth : Nat) :
    List (Nat × ℤ) :=
  ((monthSpan obs).filter (fun m => m % 12 + 1 = targetMonth)).map
    (fun m => (m, agg obs m))

/-- `series.mean()`: NaN (`none`) on an empty series, otherwise the running
sum of the values divided by the number of entries. -/
def allTimeMean (s : List (Nat × ℤ)) : Option ℚ :=
  match s with
  | [] => none
  | _ => some (((s.foldl (fun acc e => acc + e.snd) 0 : ℤ) : ℚ) / (s.length : ℚ))

/-- `series.loc[label]`: the value at the label, or a `KeyError` carrying the
label when it is absent. -/
def locLabel (s : List (Nat × ℤ)) (lab : Nat) : Except Nat ℤ :=
  match s.find? (fun e => e.fst = lab) with
  | some e => .ok e.snd
  | none => .error lab

/-- `pd.concat([s.loc["2017-04"], s.loc["2018-04"], s.loc["2019-04"]]).mean()`
as written in every analysis cell: the mean of the three hard-coded April
labels, raising `KeyError` when one of them is missing. -/
def recentMean (s : List (Nat × ℤ)) : Except Nat ℚ := do
  let a ← locLabel s (ymIdx 2017 4)
  let b ← locLabel s (ymIdx 2018 4)
  let c ← locLabel s (ymIdx 2019 4)
  pure (((a + b + c : ℤ) : ℚ) / 3)

/-- Stated from the specification text, for comparison with `recentMean`:
the arithmetic mean over the last 3 entries of the series in chronological
order, when at least 3 entries exist. -/
def specLastThreeMean (s : List (Nat × ℤ)) : Option ℚ :=
  if 3 ≤ s.length then
    some ((((s.drop (s.length - 3)).foldl (fun acc e => acc + e.snd) 0 : ℤ) : ℚ) / 3)
  else none

/-- The merged rows a single left row contributes to a pandas join: one row
per matching right row, or a single row padded with `none` (NaN columns)
when no right row matches. -/
def joinRow (α β : Type) (right : List (Nat × β)) (la : Nat × α) :
    List (Nat × α × Option β) :=
  match right.filter (fun r => r.fst = la.fst) with
  | [] => [(la.fst, la.snd, none)]
  | ms => ms.map (fun r => (la.fst, la.snd, some r.snd))

/-- pandas `left.join(right)` with its default `how` of `left`, both frames
indexed by the facility identifier: every left row is kept, gaining the
payload of each matching right row, or `none` (NaN columns) when no right
row matches. -/
def leftJoin (α β : Type) (left : List (Nat × α)) (right : List (Nat × β)) :
    List (Nat × α × Option β) :=
  left.flatMap (joinRow α β right)

/-- Outcome of the guarded join cell: either the merged table, or the notice
printed when the filtered rows are empty. -/
inductive JoinStep (α β : Type) where
  | joined : List (Nat × α × Option β) → JoinStep α β
  | notice : String → JoinStep α β
deriving DecidableEq

/-- The guarded cell: when at least one row matched the target month, fetch
the facility table and join; otherwise skip the join and print the notice. -/
def latestStep (α β : Type) (rows : List (Nat × α)) (fac : List (Nat × β)) :
    JoinStep α β :=
  if rows.length > 0 then .joined (leftJoin α β rows fac)
  else .notice "Actually, there were no reporting violations for April"

/-- A merged facility row as it reaches the mapping cell; `none` models a
NaN coordinate. -/
structure FacRow where
  lat : Option ℚ
  long : Option ℚ
  qtrs : ℤ
deriving DecidableEq

/-- The missing-data filter before mapping:
`latest[~(np.isnan(latest["FAC_LAT"])) | ~(np.isnan(latest["FAC_LONG"]))]`. -/
def coordFilter (rows : List FacRow) : List FacRow :=
  rows.filter (fun r => (!r.lat.isNone) || (!r.long.isNone))

/-- The scenario data of the specification:
`[("04/05/2018", 3), ("04/20/2018", 2), ("04/01/2019", 5), ("04/15/2020", 1)]`. -/
def obsApril : List Obs :=
  [⟨⟨2018, 4, 5⟩, 3, 1⟩, ⟨⟨2018, 4, 20⟩, 2, 2⟩, ⟨⟨2019, 4, 1⟩, 5, 3⟩, ⟨⟨2020, 4, 15⟩, 1, 4⟩]

/-- One observation in each April of 2016 to 2019 and four in April 2020:
data for which the three most recent Aprils with data are 2018 to 2020. -/
def obsFive : List Obs :=
  [⟨⟨2016, 4, 1⟩, 1, 1⟩, ⟨⟨2017, 4, 1⟩, 1, 2⟩, ⟨⟨2018, 4, 1⟩, 1, 3⟩, ⟨⟨2019, 4, 1⟩, 1, 4⟩,
    ⟨⟨2020, 4, 1⟩, 1, 5⟩, ⟨⟨2020, 4, 2⟩, 1, 6⟩, ⟨⟨2020, 4, 3⟩, 1, 7⟩, ⟨⟨2020, 4, 4⟩, 1, 8⟩]

/-- One observation in each of the three hard-coded baseline Aprils. -/
def obsBase : List Obs :=
  [⟨⟨2017, 4, 1⟩, 1, 1⟩, ⟨⟨2018, 4, 1⟩, 1, 2⟩, ⟨⟨2019, 4, 1⟩, 1, 3⟩]

/-- Two records of the same facility on different days of April 2018. -/
def obsSameFac : List Obs :=
  [⟨⟨2018, 4, 5⟩, 1, 100⟩, ⟨⟨2018, 4, 20⟩, 1, 100⟩]

/-- Observations in April 2018 and April 2020 only: no data at all in 2019. -/
def obsGap : List Obs :=
  [⟨⟨2018, 4, 10⟩, 3, 1⟩, ⟨⟨2020, 4, 10⟩, 4, 2⟩]

/-! Helper lemmas about the monthly grid, the series labels and the label
lookup.  They are shared by several of the claim theorems below. -/

theorem mem_monthRange (lo hi m : Nat) : m ∈ monthRange lo hi ↔ lo ≤ m ∧ m ≤ hi := by
  simp only [monthRange, List.mem_map, List.mem_range]
  constructor
  · rintro ⟨i, hi', rfl⟩
    omega
  · rintro ⟨h1, h2⟩
    exact ⟨m - lo, by omega, by omega⟩

theorem foldl_min_le_iff (ms : List Nat) (a k : Nat) :
    ms.foldl min a ≤ k ↔ a ≤ k ∨ ∃ x ∈ ms, x ≤ k := by
  induction ms generalizing a with
  | nil => simp
  | cons b t ih =>
    rw [List.foldl_cons, ih, min_le_iff]
    simp only [List.mem_cons]
    constructor
    · rintro ((h | h) | ⟨x, hx, h⟩)
      · exact .inl h
      · exact .inr ⟨b, .inl rfl, h⟩
      · exact .inr ⟨x, .inr hx, h⟩
    · rintro (h | ⟨x, (rfl | hx), h⟩)
      · exact .inl (.inl h)
      · exact .inl (.inr h)
      · exact .inr ⟨x, hx, h⟩

theorem le_foldl_max_iff (ms : List Nat) (a k : Nat) :
    k ≤ ms.foldl max a ↔ k ≤ a ∨ ∃ x ∈ ms, k ≤ x := by
  induction ms generalizing a with
  | nil => simp
  | cons b t ih =>
    rw [List.foldl_cons, ih, le_max_iff]
    simp only [List.mem_cons]
    constructor
    · rintro ((h | h) | ⟨x, hx, h⟩)
      · exact .inl h
      · exact .inr ⟨b, .inl rfl, h⟩
      · exact .inr ⟨x, .inr hx, h⟩
    · rintro (h | ⟨x, (rfl | hx), h⟩)
      · exact .inl (.inl h)
      · exact .inl (.inr h)
      · exact .inr ⟨x, hx, h⟩

theorem mem_monthSpan (obs : List Obs) (m : Nat) :
    m ∈ monthSpan obs ↔
      (∃ o ∈ obs, ymIndex o.date ≤ m) ∧ ∃ o ∈ obs, m ≤ ymIndex o.date := by
  cases obs with
  | nil => simp [monthSpan, obsMonths]
  | cons o rest =>
    have hms : obsMonths (o :: rest) = ymIndex o.date :: obsMonths rest := rfl
    rw [monthSpan, hms, mem_monthRange, foldl_min_le_iff, le_foldl_max_iff]
    simp only [obsMonths, List.mem_map, List.mem_cons]
    constructor
    · rintro ⟨h1 | ⟨x, ⟨o2, ho2, rfl⟩, hx⟩, h2 | ⟨y, ⟨o3, ho3, rfl⟩, hy⟩⟩
      all_goals
        refine ⟨?_, ?_⟩
      · exact ⟨o, .inl rfl, h1⟩
      · exact ⟨o, .inl rfl, h2⟩
      · exact ⟨o, .inl rfl, h1⟩
      · exact ⟨o3, .inr ho3, hy⟩
      · exact ⟨o2, .inr ho2, hx⟩
      · exact ⟨o, .inl rfl, h2⟩
      · exact ⟨o2, .inr ho2, hx⟩
      · exact ⟨o3, .inr ho3, hy⟩
    · rintro ⟨⟨o2, (rfl | ho2), h1⟩, ⟨o3, (rfl | ho3), h2⟩⟩
      · exact ⟨.inl h1, .inl h2⟩
      · exact ⟨.inl h1, .inr ⟨ymIndex o3.date, ⟨o3, ho3, rfl⟩, h2⟩⟩
      · exact ⟨.inr ⟨ymIndex o2.date, ⟨o2, ho2, rfl⟩, h1⟩, .inl h2⟩
      · exact ⟨.inr ⟨ymIndex o2.date, ⟨o2, ho2, rfl⟩, h1⟩,
          .inr ⟨ymIndex o3.date, ⟨o3, ho3, rfl⟩, h2⟩⟩

theorem monthSeries_labels (agg : List Obs → Nat → ℤ) (obs : List Obs) (M : Nat) :
    (monthSeries agg obs M).map Prod.fst =
      (monthSpan obs).filter (fun m => decide (m % 12 + 1 = M)) := by
  simp [monthSeries, List.map_map, Function.comp_def]

theorem find_in_mapped (f : Nat → ℤ) (l : List Nat) (m : Nat) (hm : m ∈ l) :
    (l.map (fun x => (x, f x))).find? (fun e => e.fst = m) = some (m, f m) := by
  induction l with
  | nil => simp at hm
  | cons a t ih =>
    rw [List.map_cons]
    by_cases h : a = m
    · subst h
      exact List.find?_cons_of_pos _ (by simp)
    · rw [List.find?_cons_of_neg _ (by simp [h])]
      exact ih (by
        rcases List.mem_cons.mp hm with h1 | h1
        · exact absurd h1.symm h
        · exact h1)

theorem locLabel_monthSeries (agg : List Obs → Nat → ℤ) (obs : List Obs) (M m : Nat)
    (hm : m ∈ (monthSeries agg obs M).map Prod.fst) :
    locLabel (monthSeries agg obs M) m = .ok (agg obs m) := by
  rw [monthSeries_labels] at hm
  unfold locLabel monthSeries
  rw [find_in_mapped (agg obs) _ m hm]

theorem foldl_add_snd (l : List (Nat × ℤ)) (c : ℤ) :
    l.foldl (fun acc e => acc + e.snd) c = c + (l.map Prod.snd).sum := by
  induction l generalizing c with
  | nil => simp
  | cons e t ih => simp [List.foldl_cons, ih, add_assoc]

theorem recentMean_eq (s : List (Nat × ℤ)) (a b c : ℤ)
    (h17 : locLabel s (ymIdx 2017 4) = .ok a)
    (h18 : locLabel s (ymIdx 2018 4) = .ok b)
    (h19 : locLabel s (ymIdx 2019 4) = .ok c) :
    recentMean s = .ok (((a + b + c : ℤ) : ℚ) / 3) := by
  unfold recentMean
  rw [h17, h18, h19]
  rfl

/-- Claim C1, counterexample: on data with an April entry in every year from
2016 to 2020, the yellow-line baseline of the code is the mean over the
hard-coded labels 2017-04, 2018-04 and 2019-04, namely 1, while the mean of
the last 3 entries of the MonthSeries (2018 to 2020, as the claim states,
including the analysis year which has data) is 2. -/
theorem recentMean_ne_lastThree_cx :
    recentMean (monthSeries countAgg obsFive 4) = .ok 1 ∧
    specLastThreeMean (monthSeries countAgg obsFive 4) = some 2 ∧ (1 : ℚ) ≠ 2 := by
  have h : monthSeries countAgg obsFive 4 =
      [(ymIdx 2016 4, 1), (ymIdx 2017 4, 1), (ymIdx 2018 4, 1), (ymIdx 2019 4, 1),
        (ymIdx 2020 4, 4)] := by decide
  refine ⟨?_, ?_, by norm_num⟩
  · have h17 : locLabel (monthSeries countAgg obsFive 4) (ymIdx 2017 4) = .ok 1 := by rfl
    have h18 : locLabel (monthSeries countAgg obsFive 4) (ymIdx 2018 4) = .ok 1 := by rfl
    have h19 : locLabel (monthSeries countAgg obsFive 4) (ymIdx 2019 4) = .ok 1 := by rfl
    rw [recentMean_eq _ 1 1 1 h17 h18 h19]
    norm_num
  · rw [h]
    norm_num [specLastThreeMean]

/-- Claim C1 (amended): the recent baseline is the arithmetic mean of the
series entries at the three fixed labels April 2017, April 2018 and
April 2019 — the three Aprils preceding the 2020 analysis year — whenever
those labels are present, regardless of which entries are last in the
series; the analysis year is never part of this mean. -/
theorem recentMean_fixed_years (agg : List Obs → Nat → ℤ) (obs : List Obs)
    (h17 : ymIdx 2017 4 ∈ (monthSeries agg obs 4).map Prod.fst)
    (h18 : ymIdx 2018 4 ∈ (monthSeries agg obs 4).map Prod.fst)
    (h19 : ymIdx 2019 4 ∈ (monthSeries agg obs 4).map Prod.fst) :
    recentMean (monthSeries agg obs 4) =
      .ok (((agg obs (ymIdx 2017 4) + agg obs (ymIdx 2018 4) + agg obs (ymIdx 2019 4) : ℤ) : ℚ) / 3) :=
  recentMean_eq _ _ _ _
    (locLabel_monthSeries agg obs 4 _ h17)
    (locLabel_monthSeries agg obs 4 _ h18)
    (locLabel_monthSeries agg obs 4 _ h19)

/-- Claim C1, witness: the amended statement evaluated on concrete data that
contains the three baseline Aprils. -/
theorem recentMean_fixed_years_witness :
    recentMean (monthSeries countAgg obsBase 4) =
      .ok (((countAgg obsBase (ymIdx 2017 4) + countAgg obsBase (ymIdx 2018 4) +
        countAgg obsBase (ymIdx 2019 4) : ℤ) : ℚ) / 3) :=
  recentMean_fixed_years countAgg obsBase (by decide) (by decide) (by decide)

/-- Claim C2 (code bug): a facility with records on two different days of
April 2018 contributes 2 to the April 2018 value of the facility series,
because the code sums the per-day distinct counts over the month, while the
number of distinct facility ids in that bucket is 1. -/
theorem facilities_overcounts_same_month :
    monthSeries facAgg obsSameFac 4 = [(ymIdx 2018 4, 2)] ∧
    monthDistinct obsSameFac (ymIdx 2018 4) = 1 := by decide

/-- Claim C3, counterexample: a violation row keyed 999 with no matching
facility row is not dropped by the merge — the default pandas join is a
left join, so the row is kept with NaN facility fields. -/
theorem join_keeps_unmatched_cx :
    leftJoin Nat Nat [(999, 7)] [(1, 5)] = [(999, 7, none)] := by decide

theorem joinRow_length (α β : Type) (right : List (Nat × β)) (la : Nat × α)
    (huniq : (right.filter (fun r => r.fst = la.fst)).length ≤ 1) :
    (joinRow α β right la).length = 1 := by
  unfold joinRow
  cases hf : right.filter (fun r => r.fst = la.fst) with
  | nil => rfl
  | cons r rs =>
    rw [hf] at huniq
    simp only [List.length_cons] at huniq
    have hrs : rs = [] := List.eq_nil_of_length_eq_zero (by omega)
    subst hrs
    rfl

theorem joinRow_unmatched (α β : Type) (right : List (Nat × β)) (k : Nat) (a : α)
    (h : ∀ r ∈ right, r.fst ≠ k) :
    joinRow α β right (k, a) = [(k, a, none)] := by
  unfold joinRow
  have hf : right.filter (fun r => r.fst = (k, a).fst) = [] := by
    rw [List.filter_eq_nil_iff]
    intro r hr
    simp only [decide_eq_true_eq]
    exact h r hr
  rw [hf]

theorem joinRow_matched (α β : Type) (right : List (Nat × β)) (k : Nat) (a : α) (b : β)
    (hb : (k, b) ∈ right) :
    (k, a, some b) ∈ joinRow α β right (k, a) := by
  unfold joinRow
  have hmem : (k, b) ∈ right.filter (fun r => r.fst = (k, a).fst) :=
    List.mem_filter.mpr ⟨hb, by simp⟩
  cases hf : right.filter (fun r => r.fst = (k, a).fst) with
  | nil =>
    rw [hf] at hmem
    simp at hmem
  | cons r rs =>
    rw [hf] at hmem
    exact List.mem_map.mpr ⟨(k, b), hmem, rfl⟩

/-- Claim C3 (amended): the merge is a left equi-join on the facility
identifier.  When the facility table has at most one row per identifier,
the merged result has exactly one row per violation row; a violation row
whose identifier matches a facility row appears with that facility payload
attached, and a violation row with no match still appears, padded with
missing (NaN) facility fields, rather than being dropped. -/
theorem leftJoin_spec (α β : Type) (left : List (Nat × α)) (right : List (Nat × β))
    (huniq : ∀ k : Nat, (right.filter (fun r => r.fst = k)).length ≤ 1) :
    (leftJoin α β left right).length = left.length ∧
    ∀ (k : Nat) (a : α), (k, a) ∈ left →
      ((∀ r ∈ right, r.fst ≠ k) → (k, a, (none : Option β)) ∈ leftJoin α β left right) ∧
      ∀ b : β, (k, b) ∈ right → (k, a, some b) ∈ leftJoin α β left right := by
  constructor
  · induction left with
    | nil => rfl
    | cons la rest ih =>
      rw [leftJoin, List.flatMap_cons, List.length_append]
      rw [leftJoin] at ih
      rw [ih, joinRow_length α β right la (huniq la.fst), List.length_cons]
      omega
  · intro k a hka
    constructor
    · intro h
      refine List.mem_flatMap.mpr ⟨(k, a), hka, ?_⟩
      rw [joinRow_unmatched α β right k a h]
      exact List.mem_singleton_self _
    · intro b hb
      exact List.mem_flatMap.mpr ⟨(k, a), hka, joinRow_matched α β right k a b hb⟩

/-- Claim C3, witness: the amended statement on the scenario-style data — a
matched violation row gains the facility payload, the unmatched row keyed
999 survives with a missing payload, and the merge has one row per
violation row. -/
theorem leftJoin_spec_witness :
    (leftJoin Nat Nat [(1, 10), (999, 11)] [(1, 5)]).length = 2 ∧
    (999, 11, (none : Option Nat)) ∈ leftJoin Nat Nat [(1, 10), (999, 11)] [(1, 5)] ∧
    (1, 10, some 5) ∈ leftJoin Nat Nat [(1, 10), (999, 11)] [(1, 5)] := by
  have h := leftJoin_spec Nat Nat [(1, 10), (999, 11)] [(1, 5)]
    (fun k => le_trans (List.length_filter_le _ _) (by decide))
  exact ⟨h.1, (h.2 999 11 (by decide)).1 (by decide), (h.2 1 10 (by decide)).2 5 (by decide)⟩

/-- Claim C4, counterexample: with observations only in April 2018 and April
2020, the resample grid zero-fills the dataless year 2019, whose April
appears in the MonthSeries with value 0. -/
theorem monthSeries_zero_fill_cx :
    (ymIdx 2019 4, (0 : ℤ)) ∈ monthSeries countAgg obsGap 4 := by decide

/-- Claim C4 (amended): a month index is a label of the MonthSeries iff its
month component equals the target month and it lies between the earliest and
the latest observation months; years without data in the target month inside
that span get a zero-filled entry rather than being omitted, and every entry
carries the aggregate of its own bucket. -/
theorem monthSeries_labels_spec (agg : List Obs → Nat → ℤ) (obs : List Obs) (M m : Nat) :
    (m ∈ (monthSeries agg obs M).map Prod.fst ↔
      (∃ o ∈ obs, ymIndex o.date ≤ m) ∧ (∃ o ∈ obs, m ≤ ymIndex o.date) ∧ m % 12 + 1 = M) ∧
    ∀ v : ℤ, (m, v) ∈ monthSeries agg obs M → v = agg obs m := by
  constructor
  · rw [monthSeries_labels, List.mem_filter, mem_monthSpan]
    simp only [decide_eq_true_eq]
    tauto
  · intro v hv
    unfold monthSeries at hv
    obtain ⟨x, hx, hx2⟩ := List.mem_map.mp hv
    simp only [Prod.mk.injEq] at hx2
    obtain ⟨rfl, rfl⟩ := hx2
    rfl

/-- Claim C4, witness: on the gap data the zero-filled April 2019 label is in
the series, and the April 2018 entry carries its bucket count. -/
theorem monthSeries_labels_spec_witness :
    ymIdx 2019 4 ∈ (monthSeries countAgg obsGap 4).map Prod.fst ∧
    (1 : ℤ) = countAgg obsGap (ymIdx 2018 4) :=
  ⟨(monthSeries_labels_spec countAgg obsGap 4 (ymIdx 2019 4)).1.mpr (by decide),
    (monthSeries_labels_spec countAgg obsGap 4 (ymIdx 2018 4)).2 1 (by decide)⟩

/-- Claim C5, counterexample: with the April-only scenario data and target
month 6 the MonthSeries is not empty, because the resample grid zero-fills
the Junes lying inside the data span. -/
theorem targetMonth6_nonempty_cx :
    monthSeries sumAgg obsApril 6 ≠ [] := by decide

/-- Claim C5 (amended): every label of the MonthSeries has month component
equal to the target month; but on the April-only scenario data with target
month 6 the series is not empty — it consists of zero-filled entries for
the two Junes inside the data span (June 2018 and June 2019). -/
theorem monthSeries_month_component :
    (∀ (agg : List Obs → Nat → ℤ) (obs : List Obs) (M m : Nat),
        m ∈ (monthSeries agg obs M).map Prod.fst → m % 12 + 1 = M) ∧
    monthSeries sumAgg obsApril 6 = [(ymIdx 2018 6, 0), (ymIdx 2019 6, 0)] := by
  constructor
  · intro agg obs M m hm
    rw [monthSeries_labels] at hm
    exact of_decide_eq_true (List.mem_filter.mp hm).2
  · decide

/-- Claim C5, witness: the month-component statement evaluated on the
scenario data at the April 2018 label. -/
theorem monthSeries_month_component_witness :
    ymIdx 2018 4 % 12 + 1 = 4 :=
  monthSeries_month_component.1 sumAgg obsApril 4 (ymIdx 2018 4) (by decide)

theorem allTimeMean_cons (e : Nat × ℤ) (t : List (Nat × ℤ)) :
    allTimeMean (e :: t) =
      some ((((e :: t).foldl (fun acc x => acc + x.snd) 0 : ℤ) : ℚ) /
        (((e :: t).length : Nat) : ℚ)) := rfl

/-- Claim C6: the red-line baseline is the arithmetic mean of the
MonthSeries values, one equal weight per year entry regardless of how many
observations fell in it; on the scenario data with the sum aggregator the
series is [(2018-04, 5), (2019-04, 5), (2020-04, 1)] — two observations
collapse into the single 2018 entry — and the mean is 11/3. -/
theorem allTimeMean_unweighted :
    monthSeries sumAgg obsApril 4 =
      [(ymIdx 2018 4, 5), (ymIdx 2019 4, 5), (ymIdx 2020 4, 1)] ∧
    allTimeMean (monthSeries sumAgg obsApril 4) = some (11 / 3) ∧
    ∀ s : List (Nat × ℤ), s ≠ [] →
      allTimeMean s = some ((((s.map Prod.snd).sum : ℤ) : ℚ) / ((s.length : Nat) : ℚ)) := by
  have h : monthSeries sumAgg obsApril 4 =
      [(ymIdx 2018 4, 5), (ymIdx 2019 4, 5), (ymIdx 2020 4, 1)] := by decide
  refine ⟨h, ?_, ?_⟩
  · rw [h]
    norm_num [allTimeMean]
  · intro s hs
    cases s with
    | nil => exact absurd rfl hs
    | cons e t =>
      rw [allTimeMean_cons, foldl_add_snd]
      norm_num

/-- Claim C6, witness: the general mean statement evaluated on a concrete
two-entry series. -/
theorem allTimeMean_unweighted_witness :
    allTimeMean [((0 : Nat), (2 : ℤ)), (1, 4)] =
      some (((([((0 : Nat), (2 : ℤ)), (1, 4)].map Prod.snd).sum : ℤ) : ℚ) /
        ((([((0 : Nat), (2 : ℤ)), (1, 4)].length : Nat) : ℚ))) :=
  allTimeMean_unweighted.2.2 [(0, 2), (1, 4)] (by decide)

/-- Claim C7: the labels of the MonthSeries are chronologically strictly
sorted, strictly increasing in year, and contain no duplicate. -/
theorem monthSeries_sorted_nodup (agg : List Obs → Nat → ℤ) (obs : List Obs) (M : Nat) :
    ((monthSeries agg obs M).map Prod.fst).Pairwise (fun a b => a < b ∧ a / 12 < b / 12) ∧
    ((monthSeries agg obs M).map Prod.fst).Nodup := by
  have hlt : ((monthSeries agg obs M).map Prod.fst).Pairwise (· < ·) := by
    rw [monthSeries_labels]
    refine List.Pairwise.filter _ ?_
    unfold monthSpan
    cases obsMonths obs with
    | nil => exact List.Pairwise.nil
    | cons m ms =>
      unfold monthRange
      exact List.Pairwise.map _ (fun a b h => by omega) (List.pairwise_lt_range _)
  have hmem : ∀ a ∈ (monthSeries agg obs M).map Prod.fst, a % 12 + 1 = M := by
    intro a ha
    rw [monthSeries_labels] at ha
    exact of_decide_eq_true (List.mem_filter.mp ha).2
  constructor
  · refine hlt.imp_of_mem ?_
    intro a b ha hb hab
    have h1 := hmem a ha
    have h2 := hmem b hb
    exact ⟨hab, by omega⟩
  · exact hlt.imp (fun h => Nat.ne_of_lt h)

/-- Claim C8, counterexample: on empty input the recent-mean computation of
the code raises a KeyError on the first missing baseline label instead of
returning a NaN mean. -/
theorem empty_input_raises_cx :
    recentMean (monthSeries countAgg [] 4) = .error (ymIdx 2017 4) := rfl

/-- Claim C8 (amended): empty input yields an empty MonthSeries and an
undefined (NaN) all-time mean without an exception, but the recent-mean
lookup of the three hard-coded baseline labels raises a KeyError rather
than producing NaN. -/
theorem empty_input_behavior (agg : List Obs → Nat → ℤ) (M : Nat) :
    monthSeries agg [] M = [] ∧
    allTimeMean (monthSeries agg [] M) = none ∧
    recentMean (monthSeries agg [] M) = .error (ymIdx 2017 4) := by
  have h : monthSeries agg [] M = [] := rfl
  exact ⟨h, by rw [h]; rfl, by rw [h]; rfl⟩

/-- Claim C9: with zero rows matching the target month the downstream join
is skipped and the human-readable notice is produced; with at least one
matching row the facility join is performed. -/
theorem emptyResult_guard (α β : Type) (rows : List (Nat × α)) (fac : List (Nat × β)) :
    (rows = [] →
      latestStep α β rows fac =
        .notice "Actually, there were no reporting violations for April") ∧
    (rows ≠ [] → latestStep α β rows fac = .joined (leftJoin α β rows fac)) := by
  constructor
  · rintro rfl
    rfl
  · intro h
    unfold latestStep
    rw [if_pos (List.length_pos.mpr h)]

/-- Claim C9, witness: both branches of the guard evaluated on concrete
inputs. -/
theorem emptyResult_guard_witness :
    latestStep Nat Nat [] [] =
      .notice "Actually, there were no reporting violations for April" ∧
    latestStep Nat Nat [(1, 2)] [] = .joined (leftJoin Nat Nat [(1, 2)] []) :=
  ⟨(emptyResult_guard Nat Nat [] []).1 rfl,
    (emptyResult_guard Nat Nat [(1, 2)] []).2 (by decide)⟩

/-- Claim C10: the missing-coordinate filter keeps a facility row iff at
least one of its two coordinates is present; only rows missing both
coordinates are removed, so a row with exactly one NaN coordinate survives
and reaches the map-marker step. -/
theorem coordFilter_keeps_some_coord (rows : List FacRow) (r : FacRow) :
    r ∈ coordFilter rows ↔ r ∈ rows ∧ (r.lat ≠ none ∨ r.long ≠ none) := by
  rw [coordFilter, List.mem_filter]
  simp [Option.isNone_iff_eq_none, Option.isSome_iff_ne_none]

/-- Claim C10, witness: a row whose longitude alone is NaN survives the
filter. -/
theorem coordFilter_keeps_some_coord_witness :
    (⟨some 1, none, 0⟩ : FacRow) ∈ coordFilter [⟨some 1, none, 0⟩, ⟨none, none, 0⟩] :=
  (coordFilter_keeps_some_coord [⟨some 1, none, 0⟩, ⟨none, none, 0⟩] ⟨some 1, none, 0⟩).mpr
    (by simp)
